/-
  Verification of the telemetry-decoder and orbital-model components of a
  GNSS software-defined receiver, against a shallow embedding of the C++
  sources:

  * `GpsL5`          — gps_l5_telemetry_decoder_gs.cc (general_work, reset)
  * `ChannelStatus`  — channel_status_msg_receiver (msg_handler_events)
  * `Beidou`         — beidou_dnav_ephemeris.cc (check_t, Kepler iteration,
                       satellitePosition)

  Machine doubles of the source are embedded as ℚ; the machine-integer
  fields (uint32_t, uint64_t) as Nat reduced mod 2^32 / 2^64 at each
  operation.  External library calls (cnav_msg_decoder_add_symbol of libswiftcnav,
  sin/cos/sqrt/atan2 of libm) are parameters of
  the embedding: the theorems hold for every behaviour of those
  collaborators.
-/
import Mathlib

namespace GpsL5

/-- GPS_L5I_SYMBOL_PERIOD_MS from GPS_L5.h (header not in the sampled
    sources; value fixed by the in-source comment
    `symbolTime_ms = msg->tow * 6000 + *pdelay * 10 + (12 * 10)`). -/
def GPS_L5I_SYMBOL_PERIOD_MS : ℕ := 10

/-- GPS_L5_CNAV_DATA_PAGE_BITS from GPS_L5.h. -/
def GPS_L5_CNAV_DATA_PAGE_BITS : ℕ := 300

/-- GPS_L5_SYMBOLS_PER_BIT from GPS_L5.h. -/
def GPS_L5_SYMBOLS_PER_BIT : ℕ := 2

/-- `d_max_symbols_without_valid_frame`, set in the constructor to
    GPS_L5_CNAV_DATA_PAGE_BITS * GPS_L5_SYMBOLS_PER_BIT * 10. -/
def maxSymbolsWithoutValidFrame : ℕ :=
  GPS_L5_CNAV_DATA_PAGE_BITS * GPS_L5_SYMBOLS_PER_BIT * 10

/-- GPS_L5_PI from GPS_L5.h: the double literal the decoder adds to the
    carrier phase on a half-cycle slip. -/
def GPS_L5_PI : ℚ := 3.1415926535898

/-- The fields of the decoded `cnav_msg_t` (plus the `*pdelay` out-param and
    the two `invert` flags of the libswiftcnav decoder parts) that
    `general_work` reads after `cnav_msg_decoder_add_symbol` succeeds. -/
structure CnavMsgOut where
  tow : ℕ
  delay : ℕ
  part1_invert : Bool
  part2_invert : Bool
  deriving DecidableEq, Repr

/-- The fields of `Gnss_Synchro` that the decoder block and the channel
    status receiver read or write. -/
structure GnssSynchro where
  Channel_ID : ℤ
  Prompt_Q : ℚ
  Carrier_phase_rads : ℚ
  TOW_at_current_symbol_ms : ℕ
  Flag_valid_word : Bool
  Flag_valid_symbol_output : Bool
  Flag_valid_pseudorange : Bool
  Tracking_sample_counter : ℕ
  deriving DecidableEq, Repr

/-- Mutable members of `gps_l5_telemetry_decoder_gs` touched by
    `general_work`/`reset`.  `F` is the type of the libswiftcnav FEC decoder
    state `d_cnav_decoder`, which this block only ever passes to
    `cnav_msg_decoder_add_symbol`. -/
structure DecoderState (F : Type) where
  last_valid_preamble : ℕ
  sent_tlm_failed_msg : Bool
  TOW_at_current_symbol_ms : ℕ
  TOW_at_Preamble_ms : ℕ
  flag_valid_word : Bool
  sample_counter : ℕ
  flag_PLL_180_deg_phase_locked : Bool
  dump : Bool
  cnav_decoder : F
  deriving Repr

/-- Everything one call of `general_work` produces: the new member state,
    the record written to `out[0]` (if any), whether a "telemetry lost"
    message was published on `telemetry_to_trk`, the triple written to the
    dump file (if any), and the scheduler return value. -/
structure StepOut (F : Type) where
  st : DecoderState F
  output : Option GnssSynchro
  alarm : Bool
  dumped : Option (ℚ × ℕ × ℚ)
  ret : ℕ
  deriving Repr

/-- `static_cast<uint8_t>(current_synchro_data.Prompt_Q > 0) * 255`. -/
def symbol_clip (inp : GnssSynchro) : ℕ :=
  if 0 < inp.Prompt_Q then 255 else 0

/-- One call of `gps_l5_telemetry_decoder_gs::general_work` on one input
    symbol.  `fecStep` is `cnav_msg_decoder_add_symbol` of libswiftcnav
    (external to the sampled sources): it maps the decoder state and the
    clipped symbol to the new decoder state and, when a CNAV frame
    completed, the decoded message.  `dumpOk` is false when the dump-file
    write throws; the catch block only logs. -/
def general_work {F : Type} (fecStep : F → ℕ → F × Option CnavMsgOut)
    (dumpOk : Bool) (inp : GnssSynchro) (st : DecoderState F) : StepOut F :=
  -- d_sample_counter++  (uint64_t)
  let sc : ℕ := (st.sample_counter + 1) % 2 ^ 64
  -- telemetry-failure alarm, checked before the decode attempt
  let alarmFire : Bool :=
    !st.sent_tlm_failed_msg &&
      decide (maxSymbolsWithoutValidFrame <
        (sc + 2 ^ 64 - st.last_valid_preamble) % 2 ^ 64)
  let sent : Bool := st.sent_tlm_failed_msg || alarmFire
  let fr := fecStep st.cnav_decoder (symbol_clip inp)
  -- state after the frame-decode section of general_work
  let stMid : DecoderState F :=
    match fr.2 with
    | some m =>
        let pll : Bool := m.part1_invert || m.part2_invert
        let towPre : ℕ := m.tow * 6000 % 2 ^ 32
        let last : ℕ := st.TOW_at_current_symbol_ms
        let towNew : ℕ :=
          (m.tow * 6000 + (m.delay + 12) * GPS_L5I_SYMBOL_PERIOD_MS) % 2 ^ 32
        if last ≠ 0 ∧
            (GPS_L5I_SYMBOL_PERIOD_MS : ℤ) < |(towNew : ℤ) - (last : ℤ)| then
          { st with
            sample_counter := sc
            sent_tlm_failed_msg := sent
            cnav_decoder := fr.1
            flag_PLL_180_deg_phase_locked := pll
            TOW_at_Preamble_ms := towPre
            TOW_at_current_symbol_ms := 0
            flag_valid_word := false }
        else
          { st with
            sample_counter := sc
            sent_tlm_failed_msg := sent
            cnav_decoder := fr.1
            flag_PLL_180_deg_phase_locked := pll
            TOW_at_Preamble_ms := towPre
            TOW_at_current_symbol_ms := towNew
            last_valid_preamble := sc
            flag_valid_word := true }
    | none =>
        if st.flag_valid_word then
          { st with
            sample_counter := sc
            sent_tlm_failed_msg := sent
            cnav_decoder := fr.1
            TOW_at_current_symbol_ms :=
              (st.TOW_at_current_symbol_ms + GPS_L5I_SYMBOL_PERIOD_MS) % 2 ^ 32
            flag_valid_word := inp.Flag_valid_symbol_output }
        else
          { st with
            sample_counter := sc
            sent_tlm_failed_msg := sent
            cnav_decoder := fr.1 }
  -- output section: forward the annotated record only on a valid word
  if stMid.flag_valid_word then
    let phase : ℚ :=
      if stMid.flag_PLL_180_deg_phase_locked then
        inp.Carrier_phase_rads + GPS_L5_PI
      else inp.Carrier_phase_rads
    let rec_out : GnssSynchro :=
      { inp with
        Carrier_phase_rads := phase
        TOW_at_current_symbol_ms := stMid.TOW_at_current_symbol_ms
        Flag_valid_word := stMid.flag_valid_word }
    let dumped : Option (ℚ × ℕ × ℚ) :=
      if stMid.dump && dumpOk then
        some ((stMid.TOW_at_current_symbol_ms : ℚ) / 1000,
          inp.Tracking_sample_counter,
          (stMid.TOW_at_Preamble_ms : ℚ) / 1000)
      else none
    { st := stMid, output := some rec_out, alarm := alarmFire,
      dumped := dumped, ret := 1 }
  else
    { st := stMid, output := none, alarm := alarmFire, dumped := none,
      ret := 0 }

/-- `gps_l5_telemetry_decoder_gs::reset`. -/
def reset {F : Type} (st : DecoderState F) : DecoderState F :=
  { st with
    last_valid_preamble := st.sample_counter
    TOW_at_current_symbol_ms := 0
    sent_tlm_failed_msg := false
    flag_valid_word := false }

end GpsL5

namespace ChannelStatus

/-- The part of `Monitor_Pvt` this component stores (replaced wholesale). -/
structure MonitorPvt where
  RX_time : ℚ
  deriving DecidableEq, Repr

/-- Members of `channel_status_msg_receiver` touched by
    `msg_handler_events`: the channel map and the last PVT snapshot. -/
structure ReceiverState where
  channel_status_map : ℤ → Option GpsL5.GnssSynchro
  pvt_status : MonitorPvt

/-- The three payload shapes `msg_handler_events` distinguishes with
    `pmt::any_ref(msg).type()`: a `Gnss_Synchro`, a `Monitor_Pvt`, or
    anything else (logged and discarded). -/
inductive Msg where
  | synchro (g : GpsL5.GnssSynchro)
  | monitor (m : MonitorPvt)
  | unknown
  deriving Repr

/-- `channel_status_msg_receiver::msg_handler_events`. -/
def msg_handler_events (st : ReceiverState) (msg : Msg) : ReceiverState :=
  match msg with
  | .synchro g =>
      if g.Flag_valid_pseudorange then
        { st with channel_status_map :=
            Function.update st.channel_status_map g.Channel_ID (some g) }
      else
        { st with channel_status_map :=
            Function.update st.channel_status_map g.Channel_ID none }
  | .monitor m => { st with pvt_status := m }
  | .unknown => st

/-- `channel_status_msg_receiver::get_current_status_map` (returns a copy
    of the map under the lock; the functional model is the map itself). -/
def get_current_status_map (st : ReceiverState) : ℤ → Option GpsL5.GnssSynchro :=
  st.channel_status_map

/-- The state after construction: empty map, RX_time = -1. -/
def initialState : ReceiverState :=
  { channel_status_map := fun _ => none, pvt_status := { RX_time := -1 } }

/-- Delivering a sequence of messages in order. -/
def applyAll (st : ReceiverState) (msgs : List Msg) : ReceiverState :=
  msgs.foldl msg_handler_events st

/-- The most recent `Gnss_Synchro` record in `msgs` whose channel id is
    `c`, if any (messages are delivered left to right, so later entries of
    the list take priority). -/
def lastRecordFor (msgs : List Msg) (c : ℤ) : Option GpsL5.GnssSynchro :=
  match msgs with
  | [] => none
  | m :: rest =>
      match lastRecordFor rest c with
      | some g => some g
      | none =>
          match m with
          | .synchro g => if g.Channel_ID = c then some g else none
          | _ => none

end ChannelStatus

namespace Beidou

/-- BEIDOU_DNAV_PI from Beidou_DNAV.h (header not in the sampled sources;
    the standard GNSS-SDR double literal).  The theorems below do not
    depend on its value. -/
def BEIDOU_DNAV_PI : ℚ := 3.1415926535898

/-- BEIDOU_DNAV_GM from Beidou_DNAV.h. -/
def BEIDOU_DNAV_GM : ℚ := 3.986004418e14

/-- BEIDOU_DNAV_C_M_S (speed of light) from Beidou_DNAV.h. -/
def BEIDOU_DNAV_C_M_S : ℚ := 299792458

/-- BEIDOU_DNAV_F from Beidou_DNAV.h (relativistic clock constant). -/
def BEIDOU_DNAV_F : ℚ := -4.442807309e-10

/-- BEIDOU_DNAV_OMEGA_EARTH_DOT from Beidou_DNAV.h. -/
def BEIDOU_DNAV_OMEGA_EARTH_DOT : ℚ := 7.2921150e-5

/-- Truncation toward zero, as the C conversion of `x` to an integer. -/
def ratTrunc (x : ℚ) : ℤ := if 0 ≤ x then ⌊x⌋ else ⌈x⌉

/-- libm `fmod`: remainder of `x / y` with the sign of `x`. -/
def ratFmod (x y : ℚ) : ℚ := x - y * ratTrunc (x / y)

/-- The libm routines `beidou_dnav_ephemeris.cc` calls on doubles.  They
    are external to the repository, so the embedding is parametric in
    them. -/
structure Libm where
  sinF : ℚ → ℚ
  cosF : ℚ → ℚ
  sqrtF : ℚ → ℚ
  atan2F : ℚ → ℚ → ℚ

/-- One update of the fixed-point iteration for the Kepler equation:
    `E = M + d_eccentricity * sin(E)`. -/
def keplerUpdate (sinF : ℚ → ℚ) (M e E : ℚ) : ℚ := M + e * sinF E

/-- The loop body of the eccentric-anomaly computation shared by
    `sv_clock_relativistic_term` and `satellitePosition`
    (`for (int ii = 1; ii < 20; ii++) { E_old = E; E = M + e*sin(E);
    dE = fmod(E - E_old, 2π); if (fabs(dE) < 1e-12) break; }`),
    with the remaining trip count as fuel. -/
def keplerLoop (sinF : ℚ → ℚ) (M e : ℚ) : ℕ → ℚ → ℚ
  | 0, E => E
  | n + 1, E =>
      let E2 := keplerUpdate sinF M e E
      if |ratFmod (E2 - E) (2 * BEIDOU_DNAV_PI)| < 1 / 10 ^ 12 then E2
      else keplerLoop sinF M e n E2

/-- Eccentric anomaly as both member functions compute it: seed `E = M`,
    loop `ii = 1 .. 19`. -/
def eccentricAnomaly (sinF : ℚ → ℚ) (M e : ℚ) : ℚ :=
  keplerLoop sinF M e 19 M

/-- The ephemeris members of `Beidou_Dnav_Ephemeris` that the orbital and
    clock functions read. -/
structure BeidouEph where
  d_sqrt_A : ℚ
  d_Toe : ℚ
  d_Toc : ℚ
  d_Delta_n : ℚ
  d_M_0 : ℚ
  d_eccentricity : ℚ
  d_OMEGA : ℚ
  d_Cuc : ℚ
  d_Cus : ℚ
  d_Crc : ℚ
  d_Crs : ℚ
  d_i_0 : ℚ
  d_IDOT : ℚ
  d_Cic : ℚ
  d_Cis : ℚ
  d_OMEGA0 : ℚ
  d_OMEGA_DOT : ℚ
  d_A_f0 : ℚ
  d_A_f1 : ℚ
  d_A_f2 : ℚ
  deriving Repr

/-- `Beidou_Dnav_Ephemeris::check_t`. -/
def check_t (time : ℚ) : ℚ :=
  let half_week : ℚ := 302400
  if time > half_week then time - 2 * half_week
  else if time < -half_week then time + 2 * half_week
  else time

/-- What `Beidou_Dnav_Ephemeris::satellitePosition` leaves behind: the six
    position/velocity members it assigns, and its return value. -/
structure SatPosOut where
  d_satpos_X : ℚ
  d_satpos_Y : ℚ
  d_satpos_Z : ℚ
  d_satvel_X : ℚ
  d_satvel_Y : ℚ
  d_satvel_Z : ℚ
  ret : ℚ
  deriving Repr

/-- `Beidou_Dnav_Ephemeris::satellitePosition`, line for line. -/
def satellitePosition (lm : Libm) (eph : BeidouEph) (transmitTime : ℚ) :
    SatPosOut :=
  let a := eph.d_sqrt_A * eph.d_sqrt_A
  let tk := check_t (transmitTime - eph.d_Toe)
  let n0 := lm.sqrtF (BEIDOU_DNAV_GM / (a * a * a))
  let n := n0 + eph.d_Delta_n
  let M0 := eph.d_M_0 + n * tk
  let M := ratFmod (M0 + 2 * BEIDOU_DNAV_PI) (2 * BEIDOU_DNAV_PI)
  let E := eccentricAnomaly lm.sinF M eph.d_eccentricity
  let tmp_Y := lm.sqrtF (1 - eph.d_eccentricity * eph.d_eccentricity) * lm.sinF E
  let tmp_X := lm.cosF E - eph.d_eccentricity
  let nu := lm.atan2F tmp_Y tmp_X
  let phi0 := nu + eph.d_OMEGA
  let phi := ratFmod phi0 (2 * BEIDOU_DNAV_PI)
  let u := phi + eph.d_Cuc * lm.cosF (2 * phi) + eph.d_Cus * lm.sinF (2 * phi)
  let r := a * (1 - eph.d_eccentricity * lm.cosF E) +
    eph.d_Crc * lm.cosF (2 * phi) + eph.d_Crs * lm.sinF (2 * phi)
  let i := eph.d_i_0 + eph.d_IDOT * tk +
    eph.d_Cic * lm.cosF (2 * phi) + eph.d_Cis * lm.sinF (2 * phi)
  let Omega0 := eph.d_OMEGA0 +
    (eph.d_OMEGA_DOT - BEIDOU_DNAV_OMEGA_EARTH_DOT) * tk -
    BEIDOU_DNAV_OMEGA_EARTH_DOT * eph.d_Toe
  let Omega := ratFmod (Omega0 + 2 * BEIDOU_DNAV_PI) (2 * BEIDOU_DNAV_PI)
  let pX := lm.cosF u * r * lm.cosF Omega - lm.sinF u * r * lm.cosF i * lm.sinF Omega
  let pY := lm.cosF u * r * lm.sinF Omega + lm.sinF u * r * lm.cosF i * lm.cosF Omega
  let pZ := lm.sinF u * r * lm.sinF i
  let Omega_dot := eph.d_OMEGA_DOT - BEIDOU_DNAV_OMEGA_EARTH_DOT
  let vX := -Omega_dot * (lm.cosF u * r + lm.sinF u * r * lm.cosF i) +
    pX * lm.cosF Omega - pY * lm.cosF i * lm.sinF Omega
  let vY := Omega_dot * (lm.cosF u * r * lm.cosF Omega -
      lm.sinF u * r * lm.cosF i * lm.sinF Omega) +
    pX * lm.sinF Omega + pY * lm.cosF i * lm.cosF Omega
  let vZ := pY * lm.sinF i
  let tk2 := check_t (transmitTime - eph.d_Toc)
  let dtr_s0 := eph.d_A_f0 + eph.d_A_f1 * tk2 + eph.d_A_f2 * tk2 * tk2
  let dtr_s := dtr_s0 -
    2 * lm.sqrtF (BEIDOU_DNAV_GM * a) * eph.d_eccentricity * lm.sinF E /
      (BEIDOU_DNAV_C_M_S * BEIDOU_DNAV_C_M_S)
  { d_satpos_X := pX, d_satpos_Y := pY, d_satpos_Z := pZ,
    d_satvel_X := vX, d_satvel_Y := vY, d_satvel_Z := vZ, ret := dtr_s }

/-- `Beidou_Dnav_Ephemeris::sv_clock_relativistic_term`, which runs the
    same eccentric-anomaly loop and returns
    `F * e * sqrt_A * sin(E)`. -/
def sv_clock_relativistic_term (lm : Libm) (eph : BeidouEph)
    (transmitTime : ℚ) : ℚ :=
  let a := eph.d_sqrt_A * eph.d_sqrt_A
  let tk := check_t (transmitTime - eph.d_Toe)
  let n0 := lm.sqrtF (BEIDOU_DNAV_GM / (a * a * a))
  let n := n0 + eph.d_Delta_n
  let M0 := eph.d_M_0 + n * tk
  let M := ratFmod (M0 + 2 * BEIDOU_DNAV_PI) (2 * BEIDOU_DNAV_PI)
  let E := eccentricAnomaly lm.sinF M eph.d_eccentricity
  BEIDOU_DNAV_F * eph.d_eccentricity * eph.d_sqrt_A * lm.sinF E

/-- The clock correction exactly as claimed for the
    return value of `satellitePosition`: the clock polynomial `A_f0 + A_f1·tk + A_f2·tk²` at
    `tk = check_t(transmitTime − Toc)`, minus the relativistic term
    `2·sqrt(GM·a)·e·sin(E)/c²` with `E` the eccentric anomaly of the
    position computation.  Written from the words of the specification, to be
    compared with the source translation above. -/
def claimedClockCorrection (lm : Libm) (eph : BeidouEph)
    (transmitTime : ℚ) : ℚ :=
  let a := eph.d_sqrt_A * eph.d_sqrt_A
  let tkE := check_t (transmitTime - eph.d_Toe)
  let n := lm.sqrtF (BEIDOU_DNAV_GM / (a * a * a)) + eph.d_Delta_n
  let M := ratFmod (eph.d_M_0 + n * tkE + 2 * BEIDOU_DNAV_PI)
    (2 * BEIDOU_DNAV_PI)
  let E := eccentricAnomaly lm.sinF M eph.d_eccentricity
  let tk := check_t (transmitTime - eph.d_Toc)
  eph.d_A_f0 + eph.d_A_f1 * tk + eph.d_A_f2 * tk * tk -
    2 * lm.sqrtF (BEIDOU_DNAV_GM * a) * eph.d_eccentricity * lm.sinF E /
      (BEIDOU_DNAV_C_M_S * BEIDOU_DNAV_C_M_S)

end Beidou

namespace GpsL5

/-- A concrete input record used to instantiate the decoder theorems. -/
def wInp : GnssSynchro :=
  { Channel_ID := 0, Prompt_Q := 1, Carrier_phase_rads := 0,
    TOW_at_current_symbol_ms := 0, Flag_valid_word := false,
    Flag_valid_symbol_output := true, Flag_valid_pseudorange := true,
    Tracking_sample_counter := 5 }

/-- A concrete freshly-constructed decoder state (FEC state `Unit`). -/
def wSt : DecoderState Unit :=
  { last_valid_preamble := 0, sent_tlm_failed_msg := false,
    TOW_at_current_symbol_ms := 0, TOW_at_Preamble_ms := 0,
    flag_valid_word := false, sample_counter := 0,
    flag_PLL_180_deg_phase_locked := false, dump := false,
    cnav_decoder := () }

/-- A concrete decoded CNAV message: TOW count 100, zero delay, no
    inversion. -/
def wMsg : CnavMsgOut :=
  { tow := 100, delay := 0, part1_invert := false, part2_invert := false }

/-- The same message with part 1 inverted. -/
def wMsgInv : CnavMsgOut :=
  { tow := 100, delay := 0, part1_invert := true, part2_invert := false }

/-- A FEC oracle that decodes the same message on every symbol. -/
def wFecMsg : Unit → ℕ → Unit × Option CnavMsgOut :=
  fun u _ => (u, some wMsg)

/-- A FEC oracle that never completes a frame. -/
def wFecNone : Unit → ℕ → Unit × Option CnavMsgOut :=
  fun u _ => (u, none)

/-- A FEC oracle that decodes a message with part 1 inverted. -/
def wFecInv : Unit → ℕ → Unit × Option CnavMsgOut :=
  fun u _ => (u, some wMsgInv)

/-- The record the decoder forwards for `wFecInv`/`wInp`/`wSt`:
    TOW projected to 100·6000 + (0+12)·10 ms and the carrier phase
    shifted by GPS_L5_PI. -/
def w7Rec : GnssSynchro :=
  { wInp with
    Carrier_phase_rads := wInp.Carrier_phase_rads + GPS_L5_PI,
    TOW_at_current_symbol_ms := 600120,
    Flag_valid_word := true }

/-- `wSt` with the alarm already sent. -/
def wStSent : DecoderState Unit :=
  { wSt with sent_tlm_failed_msg := true }

/-- `wSt` holding a valid word with a known TOW. -/
def w6St : DecoderState Unit :=
  { wSt with flag_valid_word := true, TOW_at_current_symbol_ms := 600120 }

/-- A stateful FEC oracle (state = symbols seen): fails on the first
    symbol, decodes a message on the second. -/
def cexFecC2 : ℕ → ℕ → ℕ × Option CnavMsgOut :=
  fun k _ => (k + 1, if k = 1 then some wMsg else none)

/-- A decoder state one symbol short of the loss-of-telemetry threshold
    (FEC state ℕ, matching `cexFecC2`). -/
def cexStC2 : DecoderState ℕ :=
  { last_valid_preamble := 0, sent_tlm_failed_msg := false,
    TOW_at_current_symbol_ms := 0, TOW_at_Preamble_ms := 0,
    flag_valid_word := false, sample_counter := 6000,
    flag_PLL_180_deg_phase_locked := false, dump := false,
    cnav_decoder := 0 }

end GpsL5

/-
  Theorems.
-/

namespace Beidou

/-- Unfolding of one trip of the eccentric-anomaly loop. -/
lemma keplerLoop_succ (sinF : ℚ → ℚ) (M e : ℚ) (n : ℕ) (E : ℚ) :
    keplerLoop sinF M e (n + 1) E =
      if |ratFmod (keplerUpdate sinF M e E - E) (2 * BEIDOU_DNAV_PI)| <
          1 / 10 ^ 12 then
        keplerUpdate sinF M e E
      else keplerLoop sinF M e n (keplerUpdate sinF M e E) := rfl

/-- The loop with `fuel + 1` remaining trips performs between 1 and
    `fuel + 1` updates, returns the last iterate, and if it stopped before
    exhausting the fuel then the last step met the 1e-12 tolerance. -/
lemma keplerLoop_spec (sinF : ℚ → ℚ) (M e : ℚ) :
    ∀ (fuel : ℕ) (E : ℚ), ∃ n : ℕ, 1 ≤ n ∧ n ≤ fuel + 1 ∧
      keplerLoop sinF M e (fuel + 1) E = (keplerUpdate sinF M e)^[n] E ∧
      (n < fuel + 1 →
        |ratFmod ((keplerUpdate sinF M e)^[n] E -
            (keplerUpdate sinF M e)^[n - 1] E) (2 * BEIDOU_DNAV_PI)| <
          1 / 10 ^ 12) := by
  intro fuel
  induction fuel with
  | zero =>
      intro E
      refine ⟨1, le_refl 1, le_refl 1, ?_, ?_⟩
      · rw [keplerLoop_succ]
        split_ifs <;> simp [keplerLoop]
      · intro h
        exact absurd h (by omega)
  | succ fuel ih =>
      intro E
      by_cases htol :
          |ratFmod (keplerUpdate sinF M e E - E) (2 * BEIDOU_DNAV_PI)| <
            1 / 10 ^ 12
      · refine ⟨1, le_refl 1, by omega, ?_, ?_⟩
        · rw [keplerLoop_succ, if_pos htol]
          simp
        · intro _
          simpa using htol
      · obtain ⟨n, hn1, hn2, heq, htl⟩ := ih (keplerUpdate sinF M e E)
        refine ⟨n + 1, by omega, by omega, ?_, ?_⟩
        · rw [keplerLoop_succ, if_neg htol, heq,
            ← Function.iterate_succ_apply]
        · intro hlt
          have hn3 : n < fuel + 1 := by omega
          have h2 := htl hn3
          have hn4 : n - 1 + 1 = n := Nat.succ_pred_eq_of_pos hn1
          rw [← Function.iterate_succ_apply, ← Function.iterate_succ_apply]
            at h2
          simp only [Nat.succ_eq_add_one, hn4] at h2
          simpa using h2

/-- C5: the eccentric-anomaly fixed-point iteration of
    `Beidou_Dnav_Ephemeris::satellitePosition` and
    `sv_clock_relativistic_term` always terminates without signalling an
    error: seeded at `E = M` it applies `E ← M + e·sin(E)` between 1 and 19
    times (hence within the 20-iteration ceiling of the loop header), the
    returned value is always the last iterate, and whenever it stops before
    exhausting the trip count the last increment met the 1e-12 tolerance
    modulo 2π. -/
theorem kepler_iteration_bounded (sinF : ℚ → ℚ) (M e : ℚ) :
    ∃ n : ℕ, 1 ≤ n ∧ n ≤ 19 ∧
      eccentricAnomaly sinF M e = (keplerUpdate sinF M e)^[n] M ∧
      (n < 19 →
        |ratFmod ((keplerUpdate sinF M e)^[n] M -
            (keplerUpdate sinF M e)^[n - 1] M) (2 * BEIDOU_DNAV_PI)| <
          1 / 10 ^ 12) := by
  obtain ⟨n, h1, h2, h3, h4⟩ := keplerLoop_spec sinF M e 18 M
  exact ⟨n, h1, by omega, h3, fun h => h4 (by omega)⟩

/-- C4 counterexample: at the time difference 1000000 s (more than one and
    a half weeks), `check_t` subtracts only one week and returns 395200 s,
    which lies outside ±302400 s. -/
theorem check_t_out_of_range_cex :
    Beidou.check_t 1000000 = 395200 ∧ ¬(Beidou.check_t 1000000 ≤ 302400) := by
  norm_num [Beidou.check_t]

/-- C4 (amended): for every time difference `t` with |t| ≤ 907200 s (one
    and a half constellation weeks), `check_t t` lies in
    [−302400, +302400] and equals `t` shifted by a whole number (0 or ±1)
    of weeks. -/
theorem check_t_in_range (t : ℚ) (h : |t| ≤ 907200) :
    (-302400 ≤ Beidou.check_t t ∧ Beidou.check_t t ≤ 302400) ∧
    (Beidou.check_t t = t ∨ Beidou.check_t t = t - 604800 ∨
      Beidou.check_t t = t + 604800) := by
  rw [abs_le] at h
  obtain ⟨hl, hr⟩ := h
  simp only [Beidou.check_t]
  split_ifs with h1 h2
  · exact ⟨⟨by linarith, by linarith⟩, Or.inr (Or.inl (by ring))⟩
  · exact ⟨⟨by linarith, by linarith⟩, Or.inr (Or.inr (by ring))⟩
  · exact ⟨⟨by linarith, by linarith⟩, Or.inl rfl⟩

/-- C4 witness: the amended statement applied at t = 400000 s. -/
theorem check_t_in_range_witness :
    |(400000 : ℚ)| ≤ 907200 ∧
      ((-302400 ≤ Beidou.check_t 400000 ∧ Beidou.check_t 400000 ≤ 302400) ∧
      (Beidou.check_t 400000 = 400000 ∨
        Beidou.check_t 400000 = 400000 - 604800 ∨
        Beidou.check_t 400000 = 400000 + 604800)) :=
  ⟨by norm_num, check_t_in_range 400000 (by norm_num)⟩

/-- C10: `Beidou_Dnav_Ephemeris::satellitePosition` returns the satellite
    clock correction — the clock polynomial at
    `tk = check_t(transmitTime − Toc)` minus the relativistic term
    `2·sqrt(GM·a)·e·sin(E)/c²` — while the Earth-fixed position and
    velocity go only to the member fields of the result, not to the
    returned scalar. -/
theorem satellitePosition_returns_clock (lm : Libm) (eph : BeidouEph)
    (transmitTime : ℚ) :
    (satellitePosition lm eph transmitTime).ret =
      claimedClockCorrection lm eph transmitTime := rfl

end Beidou

namespace ChannelStatus

/-- After delivering `msgs` to any starting state, the map entry of
    channel `c` is determined by the most recent record for `c`: the
    record itself when its pseudorange flag was set, absent when it was
    clear, and the starting entry when no record for `c` arrived. -/
lemma applyAll_map (c : ℤ) :
    ∀ (msgs : List Msg) (st : ReceiverState),
      (applyAll st msgs).channel_status_map c =
        match lastRecordFor msgs c with
        | some g => if g.Flag_valid_pseudorange then some g else none
        | none => st.channel_status_map c := by
  intro msgs
  induction msgs with
  | nil => intro st; rfl
  | cons m rest ih =>
      intro st
      have hstep : applyAll st (m :: rest) =
          applyAll (msg_handler_events st m) rest := rfl
      rw [hstep, ih]
      cases hl : lastRecordFor rest c with
      | some g => simp [lastRecordFor, hl]
      | none =>
          simp only [lastRecordFor, hl]
          cases m with
          | synchro g =>
              by_cases hc : g.Channel_ID = c
              · simp only [msg_handler_events, hc, if_pos]
                by_cases hv : g.Flag_valid_pseudorange = true
                · simp [hv, Function.update_same]
                · simp only [Bool.not_eq_true] at hv
                  simp [hv, Function.update_same]
              · have hc2 : c ≠ g.Channel_ID := fun h => hc h.symm
                simp only [msg_handler_events, hc]
                by_cases hv : g.Flag_valid_pseudorange = true <;>
                  simp [hv, Function.update_noteq hc2]
          | monitor mp => simp [msg_handler_events]
          | unknown => simp [msg_handler_events]

/-- C3: in the channel status aggregator, (i) re-applying any update to
    `msg_handler_events` is a no-op (insert/overwrite on a valid
    pseudorange, erase on an invalid one, both idempotent), and (ii) after
    any sequence of updates starting from the freshly constructed
    receiver, a channel id has an entry in the status map if and only if
    the most recent record received for that channel had
    Flag_valid_pseudorange set. -/
theorem channel_status_map_spec :
    (∀ (st : ReceiverState) (m : Msg),
      msg_handler_events (msg_handler_events st m) m =
        msg_handler_events st m) ∧
    (∀ (msgs : List Msg) (c : ℤ),
      (get_current_status_map (applyAll initialState msgs) c).isSome = true ↔
        ∃ g, lastRecordFor msgs c = some g ∧
          g.Flag_valid_pseudorange = true) := by
  constructor
  · intro st m
    cases m with
    | synchro g =>
        by_cases hv : g.Flag_valid_pseudorange = true <;>
          simp [msg_handler_events, hv, Function.update_idem]
    | monitor mp => rfl
    | unknown => rfl
  · intro msgs c
    unfold get_current_status_map
    rw [applyAll_map c msgs initialState]
    cases hl : lastRecordFor msgs c with
    | some g =>
        by_cases hv : g.Flag_valid_pseudorange = true <;> simp [hv]
    | none => simp [initialState]

end ChannelStatus

namespace GpsL5

/-- C1: when a new CNAV word decodes and the stored TOW-at-current-symbol
    is nonzero, a projected TOW
    `msg.tow·6000 + (delay+12)·GPS_L5I_SYMBOL_PERIOD_MS` differing from the
    stored TOW by strictly more than one symbol period resets the TOW to 0
    and clears the valid-word flag without resetting the FEC decoder state
    (which in every branch is exactly the state
    `cnav_msg_decoder_add_symbol` left behind); otherwise — difference at
    most one period, or no prior TOW — the valid-word flag is set, the
    current sample counter becomes the last valid preamble, and the
    projected TOW is stored. -/
theorem tow_consistency_check {F : Type}
    (fecStep : F → ℕ → F × Option CnavMsgOut) (dumpOk : Bool)
    (inp : GnssSynchro) (st : DecoderState F) (m : CnavMsgOut)
    (hdec : (fecStep st.cnav_decoder (symbol_clip inp)).2 = some m) :
    (st.TOW_at_current_symbol_ms ≠ 0 ∧
        (GPS_L5I_SYMBOL_PERIOD_MS : ℤ) <
          |((((m.tow * 6000 + (m.delay + 12) * GPS_L5I_SYMBOL_PERIOD_MS) %
              2 ^ 32 : ℕ) : ℤ) - (st.TOW_at_current_symbol_ms : ℤ))| →
      (general_work fecStep dumpOk inp st).st.TOW_at_current_symbol_ms = 0 ∧
      (general_work fecStep dumpOk inp st).st.flag_valid_word = false ∧
      (general_work fecStep dumpOk inp st).st.cnav_decoder =
        (fecStep st.cnav_decoder (symbol_clip inp)).1 ∧
      (general_work fecStep dumpOk inp st).st.last_valid_preamble =
        st.last_valid_preamble) ∧
    ((st.TOW_at_current_symbol_ms = 0 ∨
        |((((m.tow * 6000 + (m.delay + 12) * GPS_L5I_SYMBOL_PERIOD_MS) %
            2 ^ 32 : ℕ) : ℤ) - (st.TOW_at_current_symbol_ms : ℤ))| ≤
          GPS_L5I_SYMBOL_PERIOD_MS) →
      (general_work fecStep dumpOk inp st).st.flag_valid_word = true ∧
      (general_work fecStep dumpOk inp st).st.last_valid_preamble =
        (st.sample_counter + 1) % 2 ^ 64 ∧
      (general_work fecStep dumpOk inp st).st.TOW_at_current_symbol_ms =
        (m.tow * 6000 + (m.delay + 12) * GPS_L5I_SYMBOL_PERIOD_MS) % 2 ^ 32 ∧
      (general_work fecStep dumpOk inp st).st.cnav_decoder =
        (fecStep st.cnav_decoder (symbol_clip inp)).1) := by
  constructor
  · rintro ⟨h1, h2⟩
    have hcond : st.TOW_at_current_symbol_ms ≠ 0 ∧
        (GPS_L5I_SYMBOL_PERIOD_MS : ℤ) <
          |((((m.tow * 6000 + (m.delay + 12) * GPS_L5I_SYMBOL_PERIOD_MS) %
              2 ^ 32 : ℕ) : ℤ) - (st.TOW_at_current_symbol_ms : ℤ))| :=
      ⟨h1, h2⟩
    simp only [general_work, hdec]
    rw [if_pos hcond]
    simp
  · intro h
    have hcond : ¬(st.TOW_at_current_symbol_ms ≠ 0 ∧
        (GPS_L5I_SYMBOL_PERIOD_MS : ℤ) <
          |((((m.tow * 6000 + (m.delay + 12) * GPS_L5I_SYMBOL_PERIOD_MS) %
              2 ^ 32 : ℕ) : ℤ) - (st.TOW_at_current_symbol_ms : ℤ))|) := by
      rcases h with h | h
      · exact fun hk => hk.1 h
      · exact fun hk => absurd hk.2 (not_lt.mpr h)
    simp only [general_work, hdec]
    rw [if_neg hcond]
    simp

/-- C1 witness: the consistent branch at a concrete first decode. -/
theorem tow_consistency_check_witness :
    (general_work wFecMsg true wInp wSt).st.flag_valid_word = true ∧
    (general_work wFecMsg true wInp wSt).st.last_valid_preamble =
      (wSt.sample_counter + 1) % 2 ^ 64 ∧
    (general_work wFecMsg true wInp wSt).st.TOW_at_current_symbol_ms =
      (wMsg.tow * 6000 + (wMsg.delay + 12) * GPS_L5I_SYMBOL_PERIOD_MS) %
        2 ^ 32 ∧
    (general_work wFecMsg true wInp wSt).st.cnav_decoder =
      (wFecMsg wSt.cnav_decoder (symbol_clip wInp)).1 :=
  (tow_consistency_check wFecMsg true wInp wSt wMsg rfl).2 (Or.inl rfl)

/-- C2 counterexample to the claim as stated: from a state one symbol
    short of the loss threshold, the first failed symbol raises the alarm,
    and the next symbol decodes successfully and consistently (first
    decode, so no prior TOW) — yet the alarm-sent flag is still set
    afterwards, contradicting the claim that a successful consistent
    decode clears it. -/
theorem alarm_flag_not_cleared_cex :
    (general_work cexFecC2 true wInp cexStC2).alarm = true ∧
    (general_work cexFecC2 true wInp
      (general_work cexFecC2 true wInp cexStC2).st).st.flag_valid_word =
        true ∧
    (general_work cexFecC2 true wInp
      (general_work cexFecC2 true wInp cexStC2).st).st.sent_tlm_failed_msg =
        true := by
  decide

/-- C2 (amended): per call of `general_work`, if the alarm-sent flag is
    already set, no further "telemetry lost" message is published and the
    flag stays set — even when a successful consistent decode happens in
    that call; if the flag is clear, the alarm is published exactly when
    the wrapped difference between the incremented sample counter and the
    last valid preamble strictly exceeds the threshold, and the flag
    records whether the alarm was published.  Only `reset` clears the
    flag. -/
theorem alarm_single_shot {F : Type}
    (fecStep : F → ℕ → F × Option CnavMsgOut) (dumpOk : Bool)
    (inp : GnssSynchro) (st : DecoderState F) :
    (st.sent_tlm_failed_msg = true →
      (general_work fecStep dumpOk inp st).alarm = false ∧
      (general_work fecStep dumpOk inp st).st.sent_tlm_failed_msg = true) ∧
    (st.sent_tlm_failed_msg = false →
      ((general_work fecStep dumpOk inp st).alarm = true ↔
        maxSymbolsWithoutValidFrame <
          ((st.sample_counter + 1) % 2 ^ 64 + 2 ^ 64 -
            st.last_valid_preamble) % 2 ^ 64) ∧
      (general_work fecStep dumpOk inp st).st.sent_tlm_failed_msg =
        (general_work fecStep dumpOk inp st).alarm) ∧
    (reset st).sent_tlm_failed_msg = false := by
  refine ⟨?_, ?_, rfl⟩
  · intro h
    cases hfr : (fecStep st.cnav_decoder (symbol_clip inp)).2 <;>
      simp only [general_work, hfr] <;> split_ifs <;> simp [h]
  · intro h
    cases hfr : (fecStep st.cnav_decoder (symbol_clip inp)).2 <;>
      simp only [general_work, hfr] <;> split_ifs <;> simp [h]

/-- C2 witness: with the alarm-sent flag set, a call publishes no alarm
    and leaves the flag set. -/
theorem alarm_single_shot_witness :
    (general_work wFecNone true wInp wStSent).alarm = false ∧
    (general_work wFecNone true wInp wStSent).st.sent_tlm_failed_msg =
      true :=
  (alarm_single_shot wFecNone true wInp wStSent).1 rfl

/-- C6: on a symbol with no decoded word and the valid-word flag set, the
    decoder adds exactly one symbol period to the stored TOW, and the flag
    afterwards equals the Flag_valid_symbol_output of the incoming sample
    (cleared exactly when the sample is flagged not validly tracked). -/
theorem tow_extrapolation {F : Type}
    (fecStep : F → ℕ → F × Option CnavMsgOut) (dumpOk : Bool)
    (inp : GnssSynchro) (st : DecoderState F)
    (hdec : (fecStep st.cnav_decoder (symbol_clip inp)).2 = none)
    (hv : st.flag_valid_word = true) :
    (general_work fecStep dumpOk inp st).st.TOW_at_current_symbol_ms =
      (st.TOW_at_current_symbol_ms + GPS_L5I_SYMBOL_PERIOD_MS) % 2 ^ 32 ∧
    (general_work fecStep dumpOk inp st).st.flag_valid_word =
      inp.Flag_valid_symbol_output := by
  simp only [general_work, hdec]
  rw [if_pos hv]
  cases hb : inp.Flag_valid_symbol_output <;> simp [hb]

/-- C6 witness: one extrapolation step from TOW 600120. -/
theorem tow_extrapolation_witness :
    (general_work wFecNone true wInp w6St).st.TOW_at_current_symbol_ms =
      (w6St.TOW_at_current_symbol_ms + GPS_L5I_SYMBOL_PERIOD_MS) % 2 ^ 32 ∧
    (general_work wFecNone true wInp w6St).st.flag_valid_word =
      wInp.Flag_valid_symbol_output :=
  tow_extrapolation wFecNone true wInp w6St rfl rfl

/-- C7: when a decoded word reports a 180° inversion on either message
    part, the decoder latches the half-cycle flag and every record
    forwarded on that symbol carries the carrier phase shifted by exactly
    GPS_L5_PI; with no inversion reported the flag is cleared and the
    phase is forwarded unmodified. -/
theorem phase_polarity_correction {F : Type}
    (fecStep : F → ℕ → F × Option CnavMsgOut) (dumpOk : Bool)
    (inp : GnssSynchro) (st : DecoderState F) (m : CnavMsgOut)
    (hdec : (fecStep st.cnav_decoder (symbol_clip inp)).2 = some m) :
    (general_work fecStep dumpOk inp st).st.flag_PLL_180_deg_phase_locked =
      (m.part1_invert || m.part2_invert) ∧
    (∀ g, (general_work fecStep dumpOk inp st).output = some g →
      g.Carrier_phase_rads = inp.Carrier_phase_rads +
        (if (m.part1_invert || m.part2_invert) = true then GPS_L5_PI
         else 0)) := by
  by_cases hmis : st.TOW_at_current_symbol_ms ≠ 0 ∧
      (GPS_L5I_SYMBOL_PERIOD_MS : ℤ) <
        |((((m.tow * 6000 + (m.delay + 12) * GPS_L5I_SYMBOL_PERIOD_MS) %
            2 ^ 32 : ℕ) : ℤ) - (st.TOW_at_current_symbol_ms : ℤ))|
  · simp only [general_work, hdec]
    rw [if_pos hmis]
    simp
  · simp only [general_work, hdec]
    rw [if_neg hmis]
    cases hb : (m.part1_invert || m.part2_invert) <;> simp [hb]

/-- C7 witness: an inverted part 1 shifts the forwarded phase by
    GPS_L5_PI. -/
theorem phase_polarity_correction_witness :
    (general_work wFecInv true wInp wSt).st.flag_PLL_180_deg_phase_locked =
      (wMsgInv.part1_invert || wMsgInv.part2_invert) ∧
    w7Rec.Carrier_phase_rads = wInp.Carrier_phase_rads +
      (if (wMsgInv.part1_invert || wMsgInv.part2_invert) = true then
        GPS_L5_PI else 0) :=
  ⟨(phase_polarity_correction wFecInv true wInp wSt wMsgInv rfl).1,
    (phase_polarity_correction wFecInv true wInp wSt wMsgInv rfl).2 w7Rec
      rfl⟩

/-- C8: whether the dump-file write throws or succeeds changes nothing
    except the dump record itself: the decoder state, the forwarded
    record, the alarm and the return value are identical, so decoding
    continues unaffected. -/
theorem dump_failure_harmless {F : Type}
    (fecStep : F → ℕ → F × Option CnavMsgOut) (inp : GnssSynchro)
    (st : DecoderState F) :
    (general_work fecStep false inp st).st =
      (general_work fecStep true inp st).st ∧
    (general_work fecStep false inp st).output =
      (general_work fecStep true inp st).output ∧
    (general_work fecStep false inp st).alarm =
      (general_work fecStep true inp st).alarm ∧
    (general_work fecStep false inp st).ret =
      (general_work fecStep true inp st).ret := by
  cases hfr : (fecStep st.cnav_decoder (symbol_clip inp)).2 <;>
    simp only [general_work, hfr] <;> split_ifs <;> simp

/-- C9: `general_work` returns 1 and forwards a record annotated with the
    stored TOW and a set valid-word flag exactly when the valid-word flag
    is true after processing the symbol; when it is false it returns 0 and
    forwards nothing. -/
theorem output_gating {F : Type}
    (fecStep : F → ℕ → F × Option CnavMsgOut) (dumpOk : Bool)
    (inp : GnssSynchro) (st : DecoderState F) :
    ((general_work fecStep dumpOk inp st).st.flag_valid_word = true →
      (general_work fecStep dumpOk inp st).ret = 1 ∧
      ∃ g, (general_work fecStep dumpOk inp st).output = some g ∧
        g.TOW_at_current_symbol_ms =
          (general_work fecStep dumpOk inp st).st.TOW_at_current_symbol_ms ∧
        g.Flag_valid_word = true) ∧
    ((general_work fecStep dumpOk inp st).st.flag_valid_word = false →
      (general_work fecStep dumpOk inp st).ret = 0 ∧
      (general_work fecStep dumpOk inp st).output = none) := by
  cases hfr : (fecStep st.cnav_decoder (symbol_clip inp)).2 <;>
    simp only [general_work, hfr] <;> split_ifs <;> simp_all

/-- C9 witness: a successful decode forwards the annotated record and
    returns 1. -/
theorem output_gating_witness :
    (general_work wFecMsg true wInp wSt).ret = 1 ∧
    ∃ g, (general_work wFecMsg true wInp wSt).output = some g ∧
      g.TOW_at_current_symbol_ms =
        (general_work wFecMsg true wInp wSt).st.TOW_at_current_symbol_ms ∧
      g.Flag_valid_word = true :=
  (output_gating wFecMsg true wInp wSt).1 (by decide)

end GpsL5
